import Mathlib

/-!
Verification of the NFL schedule upload script (`nfl_upload.py`).

The script is a one-shot batch importer: it reads a spreadsheet of game
rows, validates columns, game types and team references, derives a UTC
kickoff instant per row (interpreting the spreadsheet date/time as US
Eastern wall-clock time), and inserts the rows into a `games` table in
one transaction with per-row error isolation.

This file shallowly embeds the script.  External effects are made
explicit: the database connection becomes a `Connection` value with
pending/committed row lists (modelling InnoDB transaction semantics:
`execute` buffers an insert into the open transaction, `commit` makes
the pending rows durable, `rollback` discards them), exceptions become
`Except`/`Option` results, and the outcome of each `cursor.execute`
call — which depends on the external database — is an `InsertOutcome`
oracle parameter.
-/

set_option autoImplicit false

namespace NflUpload

/-- A pure calendar date (the result of `pd.to_datetime(x).date()`). -/
structure Date where
  year : Nat
  month : Nat
  day : Nat
  deriving DecidableEq, Repr

/-- A time of day (a Python `datetime.time` value). -/
structure Time where
  hour : Nat
  minute : Nat
  second : Nat
  deriving DecidableEq, Repr

/-- A naive (timezone-less) datetime, as produced by `datetime.combine`. -/
structure DateTime where
  year : Nat
  month : Nat
  day : Nat
  hour : Nat
  minute : Nat
  second : Nat
  deriving DecidableEq, Repr

/-- Embeds `datetime.combine(game_date, game_time)`. -/
def combine (d : Date) (t : Time) : DateTime :=
  ⟨d.year, d.month, d.day, t.hour, t.minute, t.second⟩

/-- Days elapsed since 0000-03-01 in the proleptic Gregorian calendar
(Howard Hinnant's `days_from_civil`, specialised to nonnegative years;
the script only ever sees modern dates). -/
def daysFromCivil (y m d : Nat) : Nat :=
  let y' := if m ≤ 2 then y - 1 else y
  let era := y' / 400
  let yoe := y' % 400
  let mp := (m + 9) % 12
  let doy := (153 * mp + 2) / 5 + d - 1
  let doe := yoe * 365 + yoe / 4 - yoe / 100 + doy
  era * 146097 + doe

/-- A timezone-neutral absolute instant: seconds since the epoch
0000-03-01T00:00:00 UTC.  Two naive datetimes denote the same instant
(at a given UTC offset) iff their second counts agree. -/
def DateTime.toSeconds (dt : DateTime) : Nat :=
  daysFromCivil dt.year dt.month dt.day * 86400
    + dt.hour * 3600 + dt.minute * 60 + dt.second

/-- Day of the week of a Gregorian date, with Sunday = 0.
(2000-03-01 was a Wednesday and `daysFromCivil 2000 3 1` is divisible
by 7, hence the offset 3.) -/
def dayOfWeek (y m d : Nat) : Nat :=
  (daysFromCivil y m d + 3) % 7

/-- Day of month of the second Sunday of March (US DST start day). -/
def secondSundayOfMarch (y : Nat) : Nat :=
  1 + (7 - dayOfWeek y 3 1) % 7 + 7

/-- Day of month of the first Sunday of November (US DST end day). -/
def firstSundayOfNovember (y : Nat) : Nat :=
  1 + (7 - dayOfWeek y 11 1) % 7

/-- Classification of a naive local time against the America/New_York
transition rules. -/
inductive LocalClass where
  /-- Daylight saving time is unambiguously in effect (UTC-4). -/
  | dst
  /-- Standard time is unambiguously in effect (UTC-5). -/
  | std
  /-- The wall-clock time occurs twice (fall-back hour). -/
  | ambiguous
  /-- The wall-clock time never occurs (spring-forward hour). -/
  | nonexistent
  deriving DecidableEq, Repr

/-- Classify a naive local datetime under the `America/New_York` rules
used by `pytz`: DST runs from 2:00 on the second Sunday of March (the
wall-clock hour 2:00–2:59 is skipped) to 2:00 DST on the first Sunday
of November (the wall-clock hour 1:00–1:59 repeats).  This models the
tz database rules in force since 2007, covering every date the NFL
schedule data can contain. -/
def classifyEastern (dt : DateTime) : LocalClass :=
  if 4 ≤ dt.month ∧ dt.month ≤ 10 then .dst
  else if dt.month = 3 then
    let ss := secondSundayOfMarch dt.year
    if dt.day < ss then .std
    else if ss < dt.day then .dst
    else if dt.hour < 2 then .std
    else if dt.hour = 2 then .nonexistent
    else .dst
  else if dt.month = 11 then
    let fs := firstSundayOfNovember dt.year
    if dt.day < fs then .dst
    else if fs < dt.day then .std
    else if dt.hour < 1 then .dst
    else if dt.hour = 1 then .ambiguous
    else .std
  else .std

/-- Embeds `eastern_tz.localize(naive, is_dst)` followed by
`.astimezone(pytz.UTC)`, returning the absolute instant in seconds.
`pytz` semantics: for unambiguous times the `is_dst` flag is ignored;
for ambiguous or nonexistent wall-clock times, `is_dst = some true`
picks the DST offset (UTC-4), `is_dst = some false` — the parameter's
default — picks the standard-time offset (UTC-5), and `is_dst = none`
raises `AmbiguousTimeError`/`NonExistentTimeError`, modelled as `none`. -/
def localizeEastern (dt : DateTime) (isDst : Option Bool) : Option Nat :=
  match classifyEastern dt with
  | .dst => some (dt.toSeconds + 4 * 3600)
  | .std => some (dt.toSeconds + 5 * 3600)
  | .ambiguous | .nonexistent =>
    match isDst with
    | none => none
    | some b => some (dt.toSeconds + (if b then 4 else 5) * 3600)

/-- A spreadsheet cell fed to Python's `int(...)`: either the
conversion succeeds with a value, or it raises (cell not convertible). -/
inductive Cell where
  | intVal (n : Int)
  | nonInt (raw : String)
  deriving DecidableEq, Repr

/-- Result of `int(cell)`: `none` models the raised `ValueError`. -/
def Cell.toInt? : Cell → Option Int
  | .intVal n => some n
  | .nonInt _ => none

/-- The textual rendering of the cell (used in error messages). -/
def Cell.raw : Cell → String
  | .intVal n => toString n
  | .nonInt s => s

/-- The `game_date` cell as seen by `pd.to_datetime(...).date()`:
either parsing succeeds with a calendar date, or it raises. -/
inductive DateCell where
  | parsed (d : Date)
  | unparseable (raw : String)
  deriving DecidableEq, Repr

/-- The `game_time_et` cell.  The script branches on
`isinstance(value, str)`: a string is parsed with
`pd.to_datetime(value).time()` (which may raise); a non-string is
passed to `datetime.combine` directly, which succeeds for a genuine
`time` object and raises for anything else (e.g. a NaN float). -/
inductive TimeCell where
  | strParsed (t : Time)
  | strUnparseable (raw : String)
  | timeObj (t : Time)
  | nonTime (raw : String)
  deriving DecidableEq, Repr

/-- One input row, with the ten required spreadsheet columns. -/
structure GameRow where
  nfl_game_id : String
  season_year : Cell
  week : Cell
  game_type : String
  home_team_id : Cell
  home_team : String
  away_team_id : Cell
  away_team : String
  game_date : DateCell
  game_time_et : TimeCell
  deriving DecidableEq, Repr

/-- The data printed by `calculate_kickoff_timestamp`'s exception
handler before it returns `None`: the offending game's external id and
the raw date/time cells (whose constructors carry their observed
shapes, as the Python prints `type(...)`). -/
structure KickoffFailure where
  gameId : String
  rawDate : DateCell
  rawTime : TimeCell
  deriving DecidableEq, Repr

/-- Embeds `calculate_kickoff_timestamp(row)`.  The `try` body parses the
date, normalises the time, combines them and localizes to Eastern with
`pytz`'s default `is_dst=False`; any exception is caught, the failure
is reported (`KickoffFailure`) and `None` is returned — the `.error`
branch models that non-raising failure path. -/
def calculate_kickoff_timestamp (row : GameRow) : Except KickoffFailure Nat :=
  match row.game_date with
  | .unparseable _ => .error ⟨row.nfl_game_id, row.game_date, row.game_time_et⟩
  | .parsed d =>
    match row.game_time_et with
    | .strUnparseable _ => .error ⟨row.nfl_game_id, row.game_date, row.game_time_et⟩
    | .nonTime _ => .error ⟨row.nfl_game_id, row.game_date, row.game_time_et⟩
    | .strParsed t | .timeObj t =>
      match localizeEastern (combine d t) (some false) with
      | some utc => .ok utc
      | none => .error ⟨row.nfl_game_id, row.game_date, row.game_time_et⟩

/-- The shapes of `game_date`/`game_time_et` on which the `try` body of
`calculate_kickoff_timestamp` raises (date unparseable, time string
unparseable, or a non-string non-time value that `datetime.combine`
rejects). -/
def parseFails (row : GameRow) : Bool :=
  match row.game_date with
  | .unparseable _ => true
  | .parsed _ =>
    match row.game_time_et with
    | .strUnparseable _ => true
    | .nonTime _ => true
    | .strParsed _ => false
    | .timeObj _ => false

/-- The ten required spreadsheet columns (`validate_excel_columns`). -/
def required_columns : List String :=
  ["nfl_game_id", "season_year", "week", "game_type",
   "home_team_id", "home_team", "away_team_id", "away_team",
   "game_date", "game_time_et"]

/-- Embeds `validate_excel_columns(df)`: collects every required column absent
from the file's column list and raises a `ValueError` naming all of
them (the `.error` branch) when any is missing. -/
def validate_excel_columns (columns : List String) : Except (List String) Unit :=
  let missing := required_columns.filter (fun c => !(columns.contains c))
  if missing.isEmpty then .ok () else .error missing

/-- The five permitted `game_type` values. -/
def valid_types : List String :=
  ["regular", "wildcard", "divisional", "conference", "superbowl"]

/-- Embeds `validate_game_types(df)`: collects the distinct `game_type`
values outside the enumeration (pandas `unique()` keeps first
occurrences) and raises listing them all when any exist. -/
def validate_game_types (rows : List GameRow) : Except (List String) Unit :=
  let invalid := ((rows.map (·.game_type)).filter (fun t => !(valid_types.contains t))).eraseDups
  if invalid.isEmpty then .ok () else .error invalid

/-- Lookup in the inverse dictionary
`{team_id: abbr for abbr, team_id in team_lookup.items()}`: when the
same id occurs twice the later pair overwrites, so the last matching
pair wins. -/
def team_id_lookup_get (team_lookup : List (String × Int)) (tid : Int) : Option String :=
  (team_lookup.reverse.find? (fun p => p.2 == tid)).map (·.1)

/-- Which side of a game a team reference belongs to. -/
inductive Side where
  | home
  | away
  deriving DecidableEq, Repr

/-- One entry of the `errors` list accumulated by
`validate_teams_exist`.  The constructors carry exactly the data the
script interpolates into the message string: the human row number
(`index + 2`), the side, the team id, and — for a mismatch — both the
supplied abbreviation and the canonical one from the database. -/
inductive TeamError where
  | notFound (rowNum : Nat) (side : Side) (teamId : Int)
  | mismatch (rowNum : Nat) (side : Side) (teamId : Int) (supplied expected : String)
  deriving DecidableEq, Repr

/-- The uncaught exception raised by `int(row[...])` inside
`validate_teams_exist` when a team-id cell is not integer-convertible:
it aborts validation at that row/side, discarding any accumulated
referential errors. -/
structure ConvFailure where
  rowNum : Nat
  side : Side
  raw : String
  deriving DecidableEq, Repr

/-- The per-side body of `validate_teams_exist`'s loop: convert the id
cell with `int` (raising on failure), then flag a not-found id or an
abbreviation mismatch. -/
def checkSide (team_lookup : List (String × Int)) (rowNum : Nat) (side : Side)
    (idCell : Cell) (abbr : String) : Except ConvFailure (List TeamError) :=
  match idCell.toInt? with
  | none => .error ⟨rowNum, side, idCell.raw⟩
  | some tid =>
    match team_id_lookup_get team_lookup tid with
    | none => .ok [.notFound rowNum side tid]
    | some canon =>
      if canon = abbr then .ok []
      else .ok [.mismatch rowNum side tid abbr canon]

/-- One iteration of `validate_teams_exist`'s row loop: check the home
side, then the away side; a conversion exception propagates. -/
def validateRow (team_lookup : List (String × Int)) (index : Nat) (row : GameRow) :
    Except ConvFailure (List TeamError) := do
  let homeErrs ← checkSide team_lookup (index + 2) .home row.home_team_id row.home_team
  let awayErrs ← checkSide team_lookup (index + 2) .away row.away_team_id row.away_team
  return homeErrs ++ awayErrs

/-- The whole row loop of `validate_teams_exist`, accumulating error
entries in encounter order; a conversion exception aborts the loop. -/
def validateAll (team_lookup : List (String × Int)) (index : Nat) :
    List GameRow → Except ConvFailure (List TeamError)
  | [] => .ok []
  | row :: rest => do
    let e ← validateRow team_lookup index row
    let es ← validateAll team_lookup (index + 1) rest
    return e ++ es

/-- Outcome of `validate_teams_exist`: normal return (`True`), the
aggregated `ValueError` carrying the true total error count while only
the first ten entries are displayed, or an uncaught conversion
exception. -/
inductive ValidateTeamsResult where
  | passed
  | referentialError (total : Nat) (displayed : List TeamError)
  | conversionError (f : ConvFailure)
  deriving DecidableEq, Repr

/-- Embeds `validate_teams_exist(df, team_lookup)`. -/
def validate_teams_exist (rows : List GameRow) (team_lookup : List (String × Int)) :
    ValidateTeamsResult :=
  match validateAll team_lookup 0 rows with
  | .error f => .conversionError f
  | .ok errs =>
    if errs.isEmpty then .passed
    else .referentialError errs.length (errs.take 10)

/-- The per-side error entries as described by the spec's Referential
Validator contract (no exceptions: the conversion-failure case cannot
arise under the contract's implicit precondition).  Used to state that
`validate_teams_exist` accumulates exhaustively. -/
def sideErrors (team_lookup : List (String × Int)) (rowNum : Nat) (side : Side)
    (idCell : Cell) (abbr : String) : List TeamError :=
  match idCell.toInt? with
  | none => []
  | some tid =>
    match team_id_lookup_get team_lookup tid with
    | none => [.notFound rowNum side tid]
    | some canon =>
      if canon = abbr then []
      else [.mismatch rowNum side tid abbr canon]

/-- Both sides' spec-level error entries for one row. -/
def specRowErrors (team_lookup : List (String × Int)) (index : Nat) (row : GameRow) :
    List TeamError :=
  sideErrors team_lookup (index + 2) .home row.home_team_id row.home_team
    ++ sideErrors team_lookup (index + 2) .away row.away_team_id row.away_team

/-- The spec-level accumulated error list over all rows, in row order. -/
def allSpecErrors (team_lookup : List (String × Int)) (index : Nat) :
    List GameRow → List TeamError
  | [] => []
  | row :: rest =>
    specRowErrors team_lookup index row ++ allSpecErrors team_lookup (index + 1) rest

/-- The external database's response to one `cursor.execute(INSERT ...)`
call: either it succeeds, or the driver raises (duplicate key,
constraint violation, ...) with a message. -/
inductive InsertOutcome where
  | ok
  | dbError (msg : String)
  deriving DecidableEq, Repr

/-- The tuple bound to the `INSERT INTO games` statement:
all `GameRow` fields (team ids and season/week passed through `int`),
the derived kickoff instant, and the literal default status
`'scheduled'`. -/
structure PersistedRow where
  nfl_game_id : String
  season_year : Int
  week : Int
  game_type : String
  home_team_id : Int
  away_team_id : Int
  game_date : DateCell
  game_time : TimeCell
  kickoff_timestamp : Nat
  status : String
  deriving DecidableEq, Repr

/-- The database connection with its single open transaction, modelling
InnoDB semantics: `execute` buffers an insert into the transaction,
`commit` makes pending rows durable, `rollback` discards them. -/
structure Connection where
  committed : List PersistedRow
  pending : List PersistedRow
  deriving DecidableEq, Repr

/-- A successful `cursor.execute` of an insert: the row joins the open
transaction's pending work. -/
def Connection.execute (c : Connection) (row : PersistedRow) : Connection :=
  ⟨c.committed, c.pending ++ [row]⟩

/-- Embeds `connection.commit()`: pending rows become durable together. -/
def Connection.commit (c : Connection) : Connection :=
  ⟨c.committed ++ c.pending, []⟩

/-- Embeds `connection.rollback()`: pending rows are discarded; previously
committed rows are untouched. -/
def Connection.rollback (c : Connection) : Connection :=
  ⟨c.committed, []⟩

/-- One entry of the `errors` list accumulated by
`upload_games_to_database`, carrying the data interpolated into the
message: the human row number (`index + 2`) and, for a caught per-row
exception, the row's external game id and the exception text. -/
inductive RowError where
  | kickoffFail (rowNum : Nat)
  | insertExc (rowNum : Nat) (gameId : String) (msg : String)
  deriving DecidableEq, Repr

/-- The loop counters and error list of `upload_games_to_database`. -/
structure UploadState where
  success_count : Nat
  error_count : Nat
  errors : List RowError
  deriving DecidableEq, Repr

/-- The body of the per-row `try` after the kickoff timestamp is known:
convert `home_team_id`, `away_team_id`, `season_year` and `week` with
`int` (in the script's evaluation order — any failure raises, caught by
the per-row handler), assemble the data tuple, and run the insert,
whose outcome the external database decides. -/
def insertAttempt (row : GameRow) (ts : Nat) (io : InsertOutcome) :
    Except String PersistedRow :=
  match row.home_team_id.toInt? with
  | none => .error ("invalid literal for int(): " ++ row.home_team_id.raw)
  | some h =>
  match row.away_team_id.toInt? with
  | none => .error ("invalid literal for int(): " ++ row.away_team_id.raw)
  | some a =>
  match row.season_year.toInt? with
  | none => .error ("invalid literal for int(): " ++ row.season_year.raw)
  | some sy =>
  match row.week.toInt? with
  | none => .error ("invalid literal for int(): " ++ row.week.raw)
  | some w =>
  match io with
  | .ok => .ok ⟨row.nfl_game_id, sy, w, row.game_type, h, a,
                row.game_date, row.game_time_et, ts, "scheduled"⟩
  | .dbError m => .error m

/-- How one iteration of the upload loop's `try` body terminates. -/
inductive RowFate where
  /-- `calculate_kickoff_timestamp` returned `None`. -/
  | tsFailed
  /-- An exception was raised and caught by the per-row handler. -/
  | excFailed (msg : String)
  /-- The insert executed; the row is pending in the transaction. -/
  | inserted (p : PersistedRow)
  deriving DecidableEq, Repr

/-- Classify one iteration of the upload loop: kickoff derivation
first, then conversion and insert. -/
def rowFate (row : GameRow) (io : InsertOutcome) : RowFate :=
  match calculate_kickoff_timestamp row with
  | .error _ => .tsFailed
  | .ok ts =>
    match insertAttempt row ts io with
    | .error m => .excFailed m
    | .ok p => .inserted p

/-- One iteration of the upload loop, updating the counters, the error
list and the connection.  A `tsFailed` row records
`"Row N: Could not calculate kickoff timestamp"`; a caught exception
records `"Row N (game_id): msg"`; a successful insert bumps
`success_count`. -/
def processRow (index : Nat) (row : GameRow) (io : InsertOutcome)
    (st : UploadState) (conn : Connection) : UploadState × Connection :=
  match rowFate row io with
  | .tsFailed =>
    ({ st with error_count := st.error_count + 1,
               errors := st.errors ++ [.kickoffFail (index + 2)] }, conn)
  | .excFailed m =>
    ({ st with error_count := st.error_count + 1,
               errors := st.errors ++ [.insertExc (index + 2) row.nfl_game_id m] }, conn)
  | .inserted p =>
    ({ st with success_count := st.success_count + 1 }, conn.execute p)

/-- The `for index, row in df.iterrows()` loop.  `iterFault` models the
iteration machinery itself raising before yielding the row at the given
index (e.g. the connection dropping mid-batch): such an exception is
outside the per-row `try` and escapes the loop. -/
def uploadLoop (rows : List GameRow) (ins : Nat → InsertOutcome)
    (iterFault : Option (Nat × String)) (index : Nat)
    (st : UploadState) (conn : Connection) :
    Except (String × Connection) (UploadState × Connection) :=
  match rows with
  | [] => .ok (st, conn)
  | row :: rest =>
    match iterFault with
    | some (k, m) =>
      if k = index then .error (m, conn)
      else
        let sc := processRow index row (ins index) st conn
        uploadLoop rest ins iterFault (index + 1) sc.1 sc.2
    | none =>
      let sc := processRow index row (ins index) st conn
      uploadLoop rest ins none (index + 1) sc.1 sc.2

/-- How `upload_games_to_database` terminates: a normal return of
`(success_count, error_count)` (with the error list), or a re-raised
exception after the outer handler rolled the transaction back. -/
inductive UploadOutcome where
  | returned (success_count error_count : Nat) (errors : List RowError)
  | raised (msg : String)
  deriving DecidableEq, Repr

/-- Embeds `upload_games_to_database(df, connection)`.  The loop runs with
per-row error isolation; afterwards the transaction is committed once
(`commitOk = false` models `connection.commit()` itself raising).  Any
exception escaping the loop or the commit reaches the outer handler,
which rolls back the transaction and re-raises. -/
def upload_games_to_database (rows : List GameRow) (ins : Nat → InsertOutcome)
    (iterFault : Option (Nat × String)) (commitOk : Bool) (conn : Connection) :
    UploadOutcome × Connection :=
  match uploadLoop rows ins iterFault 0 ⟨0, 0, []⟩ conn with
  | .error (m, c) => (.raised m, c.rollback)
  | .ok (st, c) =>
    if commitOk then (.returned st.success_count st.error_count st.errors, c.commit)
    else (.raised "commit failed", c.rollback)

/-- The environment `main` runs in: the command line, the filesystem,
the spreadsheet contents, and the database's behaviour.  `argc` is
`len(sys.argv)`; `readResult` is the parsed file (columns and rows), or
`none` when `pd.read_excel` raises; `connectOk`/`teamLookup` model
`connect_to_database` and `get_team_lookup`; the remaining fields drive
the upload as above. -/
structure MainEnv where
  argc : Nat
  fileExists : Bool
  readResult : Option (List String × List GameRow)
  connectOk : Bool
  teamLookup : Option (List (String × Int))
  ins : Nat → InsertOutcome
  iterFault : Option (Nat × String)
  commitOk : Bool

/-- The observable outcome of a `main` run: the process exit status,
whether a connection was opened, whether `main` executed
`connection.close()`, and the rows durable in the database at exit
(starting from an empty `games` table). -/
structure MainResult where
  exitCode : Nat
  connOpened : Bool
  connClosed : Bool
  db : List PersistedRow
  deriving DecidableEq, Repr

/-- Embeds `main()`.  Mirrors the script's control flow: argument check
(`sys.exit(1)` before the `try`), file-existence check (`sys.exit(1)`
raises `SystemExit`, which `except Exception` does not catch), read,
the three validators, connect, team lookup, upload, close, summary.
Any `Exception` reaching the `try`'s handler produces exit status 1;
falling off the end of `main` exits 0. -/
def mainRun (env : MainEnv) : MainResult :=
  if env.argc ≠ 2 then ⟨1, false, false, []⟩
  else if env.fileExists = false then ⟨1, false, false, []⟩
  else
    match env.readResult with
    | none => ⟨1, false, false, []⟩
    | some (columns, rows) =>
      match validate_excel_columns columns with
      | .error _ => ⟨1, false, false, []⟩
      | .ok _ =>
      match validate_game_types rows with
      | .error _ => ⟨1, false, false, []⟩
      | .ok _ =>
      if env.connectOk = false then ⟨1, false, false, []⟩
      else
        match env.teamLookup with
        | none => ⟨1, true, false, []⟩
        | some tl =>
          match validate_teams_exist rows tl with
          | .passed =>
            match upload_games_to_database rows env.ins env.iterFault env.commitOk ⟨[], []⟩ with
            | (.returned _ _ _, conn) => ⟨0, true, true, conn.committed⟩
            | (.raised _, conn) => ⟨1, true, false, conn.committed⟩
          | .referentialError _ _ => ⟨1, true, false, []⟩
          | .conversionError _ => ⟨1, true, false, []⟩

/-- Concrete row: 2025 season opener, Thursday 2025-09-04, 8:20 PM ET
(daylight saving in effect). -/
def gameRowA : GameRow :=
  ⟨"2025_01_DAL_PHI", .intVal 2025, .intVal 1, "regular",
   .intVal 21, "PHI", .intVal 9, "DAL", .parsed ⟨2025, 9, 4⟩, .timeObj ⟨20, 20, 0⟩⟩

/-- Concrete row: Friday 2025-09-05 game with a textual kickoff time. -/
def gameRowB : GameRow :=
  ⟨"2025_01_KC_LAC", .intVal 2025, .intVal 1, "regular",
   .intVal 13, "LAC", .intVal 16, "KC", .parsed ⟨2025, 9, 5⟩, .strParsed ⟨20, 0, 0⟩⟩

/-- Concrete row whose `game_date` cell does not parse. -/
def gameRowBadDate : GameRow :=
  ⟨"2025_01_TB_ATL", .intVal 2025, .intVal 1, "regular",
   .intVal 1, "ATL", .intVal 30, "TB", .unparseable "TBD", .timeObj ⟨13, 0, 0⟩⟩

/-- Concrete row: Sunday 2025-09-07 early game. -/
def gameRowC : GameRow :=
  ⟨"2025_01_PIT_NYJ", .intVal 2025, .intVal 1, "regular",
   .intVal 25, "NYJ", .intVal 27, "PIT", .parsed ⟨2025, 9, 7⟩, .timeObj ⟨13, 0, 0⟩⟩

/-- Concrete row: Sunday 2025-09-07 late-afternoon game. -/
def gameRowD : GameRow :=
  ⟨"2025_01_DET_GB", .intVal 2025, .intVal 1, "regular",
   .intVal 12, "GB", .intVal 11, "DET", .parsed ⟨2025, 9, 7⟩, .timeObj ⟨16, 25, 0⟩⟩

/-- The persisted form of `gameRowA` (20:20 EDT = 00:20 UTC next day). -/
def persistedA : PersistedRow :=
  ⟨"2025_01_DAL_PHI", 2025, 1, "regular", 21, 9, .parsed ⟨2025, 9, 4⟩,
   .timeObj ⟨20, 20, 0⟩, DateTime.toSeconds ⟨2025, 9, 5, 0, 20, 0⟩, "scheduled"⟩

/-- The persisted form of `gameRowB`. -/
def persistedB : PersistedRow :=
  ⟨"2025_01_KC_LAC", 2025, 1, "regular", 13, 16, .parsed ⟨2025, 9, 5⟩,
   .strParsed ⟨20, 0, 0⟩, DateTime.toSeconds ⟨2025, 9, 6, 0, 0, 0⟩, "scheduled"⟩

/-- The persisted form of `gameRowC`. -/
def persistedC : PersistedRow :=
  ⟨"2025_01_PIT_NYJ", 2025, 1, "regular", 25, 27, .parsed ⟨2025, 9, 7⟩,
   .timeObj ⟨13, 0, 0⟩, DateTime.toSeconds ⟨2025, 9, 7, 17, 0, 0⟩, "scheduled"⟩

/-- A database response oracle that rejects the insert of row index 4
(e.g. a duplicate key) and accepts every other insert. -/
def insOracle : Nat → InsertOutcome :=
  fun i => if i = 4 then .dbError "Duplicate entry for key games.nfl_game_id" else .ok

/-- A database response oracle that accepts every insert. -/
def insAllOk : Nat → InsertOutcome := fun _ => .ok

/-- A concrete team directory snapshot (abbreviation → team id). -/
def teamLookupW : List (String × Int) :=
  [("PHI", 21), ("DAL", 9), ("KC", 16), ("LAC", 13), ("ATL", 1), ("TB", 30),
   ("NYJ", 25), ("PIT", 27), ("GB", 12), ("DET", 11)]

/-- Concrete row with an unknown home team id (99) and an away
abbreviation ("XX") that contradicts the canonical code of id 21. -/
def gameRowRefErr : GameRow :=
  ⟨"2025_01_X_Y", .intVal 2025, .intVal 1, "regular",
   .intVal 99, "ZZZ", .intVal 21, "XX", .parsed ⟨2025, 9, 7⟩, .timeObj ⟨13, 0, 0⟩⟩

/-- Concrete row whose `home_team_id` cell is not integer-convertible. -/
def gameRowConvErr : GameRow :=
  ⟨"2025_01_C_D", .intVal 2025, .intVal 1, "regular",
   .nonInt "N/A", "PHI", .intVal 9, "DAL", .parsed ⟨2025, 9, 7⟩, .timeObj ⟨13, 0, 0⟩⟩

/-- A run environment in which everything validates but the iteration
machinery raises before row 0 of the upload loop (connection dropped
mid-batch). -/
def envLoadFault : MainEnv :=
  ⟨2, true, some (required_columns, [gameRowA]), true, some teamLookupW,
   insAllOk, some (0, "Lost connection to MySQL server"), true⟩

/-! Section: Helper lemmas about the upload loop -/

/-- Each loop iteration accounts the row in exactly one counter, keeps
the error list in step with `error_count`, and never touches the
durable (committed) rows. -/
theorem processRow_invariant (index : Nat) (row : GameRow) (io : InsertOutcome)
    (st st₀ : UploadState) (conn conn₀ : Connection)
    (hp : processRow index row io st conn = (st₀, conn₀)) :
    st₀.success_count + st₀.error_count = st.success_count + st.error_count + 1
    ∧ st₀.errors.length + st.error_count = st.errors.length + st₀.error_count
    ∧ conn₀.committed = conn.committed := by
  unfold processRow at hp
  cases hf : rowFate row io <;> rw [hf] at hp <;>
    (injection hp with hp1 hp2; subst hp1; subst hp2) <;>
    simp [Connection.execute] <;> omega

/-- If the loop returns normally, the counters have absorbed every row
and the committed rows are untouched. -/
theorem uploadLoop_ok_invariant (rows : List GameRow) (ins : Nat → InsertOutcome)
    (fa : Option (Nat × String)) :
    ∀ index st conn st' conn',
      uploadLoop rows ins fa index st conn = .ok (st', conn') →
      st'.success_count + st'.error_count = st.success_count + st.error_count + rows.length
      ∧ st'.errors.length + st.error_count = st.errors.length + st'.error_count
      ∧ conn'.committed = conn.committed := by
  induction rows with
  | nil =>
    intro index st conn st' conn' h
    unfold uploadLoop at h
    injection h with h
    injection h with h1 h2
    subst h1; subst h2
    simp
  | cons row rest ih =>
    intro index st conn st' conn' h
    unfold uploadLoop at h
    have step : ∀ st₀ conn₀,
        processRow index row (ins index) st conn = (st₀, conn₀) →
        uploadLoop rest ins fa (index + 1) st₀ conn₀ = .ok (st', conn') →
        st'.success_count + st'.error_count = st.success_count + st.error_count + (row :: rest).length
        ∧ st'.errors.length + st.error_count = st.errors.length + st'.error_count
        ∧ conn'.committed = conn.committed := by
      intro st₀ conn₀ hp hl
      obtain ⟨i1, i2, i3⟩ := ih (index + 1) st₀ conn₀ st' conn' hl
      obtain ⟨j1, j2, j3⟩ := processRow_invariant index row (ins index) st st₀ conn conn₀ hp
      refine ⟨?_, ?_, ?_⟩
      · simp only [List.length_cons]; omega
      · omega
      · rw [i3, j3]
    match fa, h with
    | some (k, m), h =>
      by_cases hk : k = index
      · simp [hk] at h
      · simp only [hk, if_false] at h
        exact step _ _ rfl h
    | none, h =>
      exact step _ _ rfl h

/-- If the loop escapes with an exception, the committed rows are
untouched at that point. -/
theorem uploadLoop_error_committed (rows : List GameRow) (ins : Nat → InsertOutcome)
    (fa : Option (Nat × String)) :
    ∀ index st conn m c,
      uploadLoop rows ins fa index st conn = .error (m, c) →
      c.committed = conn.committed := by
  induction rows with
  | nil =>
    intro index st conn m c h
    unfold uploadLoop at h
    exact absurd h (by simp)
  | cons row rest ih =>
    intro index st conn m c h
    unfold uploadLoop at h
    match fa, h with
    | some (k, m'), h =>
      by_cases hk : k = index
      · simp [hk] at h
        rw [← h.2]
      · simp only [hk, if_false] at h
        have hinv := processRow_invariant index row (ins index) st
          (processRow index row (ins index) st conn).1 conn
          (processRow index row (ins index) st conn).2 rfl
        exact (ih (index + 1) _ _ m c h).trans hinv.2.2
    | none, h =>
      have hinv := processRow_invariant index row (ins index) st
        (processRow index row (ins index) st conn).1 conn
        (processRow index row (ins index) st conn).2 rfl
      exact (ih (index + 1) _ _ m c h).trans hinv.2.2

/-- A fault positioned `k` rows ahead of the loop index is reached and
escapes with its own message, with the committed rows untouched. -/
theorem uploadLoop_fault_reached (rows : List GameRow) (ins : Nat → InsertOutcome)
    (m : String) :
    ∀ k index st conn, k < rows.length →
      ∃ c, uploadLoop rows ins (some (index + k, m)) index st conn = .error (m, c)
        ∧ c.committed = conn.committed := by
  induction rows with
  | nil =>
    intro k index st conn hk
    exact absurd hk (by simp)
  | cons row rest ih =>
    intro k index st conn hk
    match k with
    | 0 =>
      refine ⟨conn, ?_, rfl⟩
      unfold uploadLoop
      simp
    | k' + 1 =>
      have hne : index + (k' + 1) ≠ index := by omega
      have hrw : index + (k' + 1) = (index + 1) + k' := by omega
      obtain ⟨c, hc, hcom⟩ := ih k' (index + 1)
        (processRow index row (ins index) st conn).1
        (processRow index row (ins index) st conn).2
        (by simpa using hk)
      refine ⟨c, ?_, ?_⟩
      · unfold uploadLoop
        simp only [hne, if_false]
        rw [hrw]
        exact hc
      · have hinv := processRow_invariant index row (ins index) st
          (processRow index row (ins index) st conn).1 conn
          (processRow index row (ins index) st conn).2 rfl
        exact hcom.trans hinv.2.2

/-- Whenever `upload_games_to_database` re-raises, the rollback has
left the durable rows exactly as they were before the call. -/
theorem upload_raised_committed (rows : List GameRow) (ins : Nat → InsertOutcome)
    (fa : Option (Nat × String)) (commitOk : Bool) (conn : Connection)
    (m : String) (c : Connection)
    (h : upload_games_to_database rows ins fa commitOk conn = (.raised m, c)) :
    c.committed = conn.committed ∧ c.pending = [] := by
  unfold upload_games_to_database at h
  cases hl : uploadLoop rows ins fa 0 ⟨0, 0, []⟩ conn with
  | error p =>
    obtain ⟨m', c'⟩ := p
    rw [hl] at h
    simp only at h
    injection h with h1 h2
    injection h1 with h1
    subst h1; subst h2
    exact ⟨uploadLoop_error_committed rows ins fa 0 _ conn _ c' hl, rfl⟩
  | ok p =>
    obtain ⟨st, c'⟩ := p
    rw [hl] at h
    by_cases hc : commitOk = true
    · simp [hc] at h
    · simp only [Bool.not_eq_true] at hc
      simp only [hc, Bool.false_eq_true, if_false] at h
      injection h with h1 h2
      injection h1 with h1
      subst h1; subst h2
      exact ⟨(uploadLoop_ok_invariant rows ins fa 0 _ conn st c' hl).2.2, rfl⟩

/-! Section: Claim theorems for the Loader -/

/-- C1: For a 5-row input in which row 3 fails timestamp derivation and
row 5 fails its insert, `upload_games_to_database` records each failing
row (with its human row number, and the game id for the insert
failure), continues past it, commits once after the loop, and returns
`success_count = 3`, `error_count = 2`; the three successfully inserted
rows become durable. -/
theorem upload_partial_failure (r1 r2 r3 r4 r5 : GameRow) (ins : Nat → InsertOutcome)
    (p1 p2 p4 : PersistedRow) (m5 : String) (db : List PersistedRow)
    (h1 : rowFate r1 (ins 0) = .inserted p1)
    (h2 : rowFate r2 (ins 1) = .inserted p2)
    (h3 : rowFate r3 (ins 2) = .tsFailed)
    (h4 : rowFate r4 (ins 3) = .inserted p4)
    (h5 : rowFate r5 (ins 4) = .excFailed m5) :
    upload_games_to_database [r1, r2, r3, r4, r5] ins none true ⟨db, []⟩ =
      (.returned 3 2 [.kickoffFail 4, .insertExc 6 r5.nfl_game_id m5],
       ⟨db ++ [p1, p2, p4], []⟩) := by
  simp [upload_games_to_database, uploadLoop, processRow, h1, h2, h3, h4, h5,
        Connection.execute, Connection.commit]

/-- C1 witness: a concrete batch of five rows exercising the theorem. -/
theorem upload_partial_failure_witness :
    upload_games_to_database [gameRowA, gameRowB, gameRowBadDate, gameRowC, gameRowD]
        insOracle none true ⟨[], []⟩ =
      (.returned 3 2
        [.kickoffFail 4, .insertExc 6 gameRowD.nfl_game_id "Duplicate entry for key games.nfl_game_id"],
       ⟨[] ++ [persistedA, persistedB, persistedC], []⟩) :=
  upload_partial_failure gameRowA gameRowB gameRowBadDate gameRowC gameRowD insOracle
    persistedA persistedB persistedC "Duplicate entry for key games.nfl_game_id" []
    (by decide) (by decide) (by decide) (by decide) (by decide)

/-- C2: if an exception escapes the per-row loop (a transaction-level
fault at any position inside the batch), the whole transaction is
rolled back — zero rows from the call persist, even ones whose inserts
had succeeded — and the same exception is re-raised to the caller. -/
theorem upload_transaction_fault_rollback (rows : List GameRow)
    (ins : Nat → InsertOutcome) (k : Nat) (m : String) (commitOk : Bool)
    (conn : Connection) (hk : k < rows.length) :
    ∃ c, upload_games_to_database rows ins (some (k, m)) commitOk conn = (.raised m, c)
      ∧ c.committed = conn.committed ∧ c.pending = [] := by
  obtain ⟨c, hc, hcom⟩ := uploadLoop_fault_reached rows ins m k 0 ⟨0, 0, []⟩ conn hk
  rw [Nat.zero_add] at hc
  refine ⟨c.rollback, ?_, hcom, rfl⟩
  unfold upload_games_to_database
  rw [hc]

/-- C2 witness: a two-row batch whose first insert succeeds before the
connection drops; the successful insert does not survive the rollback. -/
theorem upload_transaction_fault_rollback_witness :
    1 < [gameRowA, gameRowB].length
    ∧ ∃ c, upload_games_to_database [gameRowA, gameRowB] insAllOk
          (some (1, "Lost connection to MySQL server during query")) true ⟨[], []⟩
        = (.raised "Lost connection to MySQL server during query", c)
      ∧ c.committed = (⟨[], []⟩ : Connection).committed ∧ c.pending = [] :=
  ⟨by decide,
   upload_transaction_fault_rollback [gameRowA, gameRowB] insAllOk 1
     "Lost connection to MySQL server during query" true ⟨[], []⟩ (by decide)⟩

/-- C8: whenever `upload_games_to_database` returns normally, every
input row is counted in exactly one of the two counters
(`success_count + error_count` is the row count, and the error list has
one entry per counted error); an empty input returns `(0, 0)` with the
commit still executed. -/
theorem upload_counts_partition (rows : List GameRow) (ins : Nat → InsertOutcome)
    (fa : Option (Nat × String)) (commitOk : Bool) (conn : Connection) :
    (∀ s e errs c,
        upload_games_to_database rows ins fa commitOk conn = (.returned s e errs, c) →
        s + e = rows.length ∧ errs.length = e)
    ∧ upload_games_to_database [] ins none true conn = (.returned 0 0 [], conn.commit) := by
  constructor
  · intro s e errs c h
    unfold upload_games_to_database at h
    cases hl : uploadLoop rows ins fa 0 ⟨0, 0, []⟩ conn with
    | error p =>
      obtain ⟨m', c'⟩ := p
      rw [hl] at h
      simp at h
    | ok p =>
      obtain ⟨st, c'⟩ := p
      rw [hl] at h
      by_cases hc : commitOk = true
      · simp only [hc, if_true] at h
        injection h with h1 h2
        injection h1 with hs he herrs
        subst hs; subst he; subst herrs
        have i1 := (uploadLoop_ok_invariant rows ins fa 0 _ conn st c' hl).1
        have i2 := (uploadLoop_ok_invariant rows ins fa 0 _ conn st c' hl).2.1
        simp only [List.length_nil] at i1 i2
        constructor <;> omega
      · simp only [Bool.not_eq_true] at hc
        simp [hc] at h
  · rfl

/-- C8 witness: a two-row batch with one kickoff failure partitions as
`1 + 1 = 2` with a one-entry error list. -/
theorem upload_counts_partition_witness :
    1 + 1 = [gameRowA, gameRowBadDate].length ∧ ([RowError.kickoffFail 3]).length = 1 :=
  (upload_counts_partition [gameRowA, gameRowBadDate] insAllOk none true ⟨[], []⟩).1
    1 1 [RowError.kickoffFail 3] ⟨[persistedA], []⟩ (by decide)

/-- C5: on every row whose date/time cells make parsing or combination
fail, `calculate_kickoff_timestamp` does not raise — it reports the
failure (the row's external game id and the raw date/time cells with
their shapes) and returns no result — and the Loader treats that as a
non-fatal per-row failure: `error_count` is incremented, an error entry
is recorded, no insert is attempted (the connection is untouched), and
the loop continues with the next row. -/
theorem kickoff_failure_nonfatal (r : GameRow) (index : Nat) (io : InsertOutcome)
    (st : UploadState) (conn : Connection) (rest : List GameRow)
    (ins : Nat → InsertOutcome) (h : parseFails r = true) :
    calculate_kickoff_timestamp r = .error ⟨r.nfl_game_id, r.game_date, r.game_time_et⟩
    ∧ processRow index r io st conn =
        ({ st with error_count := st.error_count + 1,
                   errors := st.errors ++ [.kickoffFail (index + 2)] }, conn)
    ∧ uploadLoop (r :: rest) ins none index st conn =
        uploadLoop rest ins none (index + 1)
          { st with error_count := st.error_count + 1,
                    errors := st.errors ++ [.kickoffFail (index + 2)] } conn := by
  have hc : calculate_kickoff_timestamp r = .error ⟨r.nfl_game_id, r.game_date, r.game_time_et⟩ := by
    unfold parseFails at h
    unfold calculate_kickoff_timestamp
    cases hd : r.game_date
    · cases ht : r.game_time_et <;> simp_all
    · rfl
  have hp : processRow index r io st conn =
      ({ st with error_count := st.error_count + 1,
                 errors := st.errors ++ [.kickoffFail (index + 2)] }, conn) := by
    simp [processRow, rowFate, hc]
  have hp' : processRow index r (ins index) st conn =
      ({ st with error_count := st.error_count + 1,
                 errors := st.errors ++ [.kickoffFail (index + 2)] }, conn) := by
    simp [processRow, rowFate, hc]
  refine ⟨hc, hp, ?_⟩
  simp only [uploadLoop]
  rw [hp']

/-- C5 witness: the unparseable-date row, at the head of a singleton
batch with fresh counters. -/
theorem kickoff_failure_nonfatal_witness :
    calculate_kickoff_timestamp gameRowBadDate =
      .error ⟨gameRowBadDate.nfl_game_id, gameRowBadDate.game_date, gameRowBadDate.game_time_et⟩
    ∧ processRow 0 gameRowBadDate .ok ⟨0, 0, []⟩ ⟨[], []⟩ =
        (⟨0, 1, [.kickoffFail 2]⟩, (⟨[], []⟩ : Connection))
    ∧ uploadLoop [gameRowBadDate] insAllOk none 0 ⟨0, 0, []⟩ ⟨[], []⟩ =
        uploadLoop [] insAllOk none 1 ⟨0, 1, [.kickoffFail 2]⟩ ⟨[], []⟩ := by
  have := kickoff_failure_nonfatal gameRowBadDate 0 .ok ⟨0, 0, []⟩ ⟨[], []⟩ []
    insAllOk (by decide)
  simpa using this

/-! Section: Claim theorems for the Timestamp Deriver -/

/-- C4: for the input date 2025-09-04 with local time 20:20:00, the
combined naive datetime falls under daylight saving (UTC-4) in US
Eastern, and `calculate_kickoff_timestamp` returns the absolute instant
2025-09-05T00:20:00 UTC. -/
theorem kickoff_opener_dst_utc :
    calculate_kickoff_timestamp gameRowA = .ok (DateTime.toSeconds ⟨2025, 9, 5, 0, 20, 0⟩)
    ∧ classifyEastern ⟨2025, 9, 4, 20, 20, 0⟩ = .dst
    ∧ DateTime.toSeconds ⟨2025, 9, 5, 0, 20, 0⟩
        = DateTime.toSeconds ⟨2025, 9, 4, 20, 20, 0⟩ + 4 * 3600 := by
  refine ⟨rfl, by decide, by decide⟩

/-- C10: for a naive local datetime that is ambiguous or nonexistent
under the daylight-saving transition, the script's `localize` call —
made without an `is_dst` argument, hence with `pytz`'s default
`is_dst=False` — deterministically selects the standard-time (UTC-5)
interpretation and never raises: a row carrying such a date and time
yields a normal result rather than a per-row failure. -/
theorem localize_default_is_standard (dt : DateTime) (gid gt ht aab : String)
    (sy w htid atid : Cell)
    (h : classifyEastern dt = .ambiguous ∨ classifyEastern dt = .nonexistent) :
    localizeEastern dt (some false) = some (dt.toSeconds + 5 * 3600)
    ∧ (localizeEastern dt (some false)).isSome = true
    ∧ calculate_kickoff_timestamp
        ⟨gid, sy, w, gt, htid, ht, atid, aab, .parsed ⟨dt.year, dt.month, dt.day⟩,
         .timeObj ⟨dt.hour, dt.minute, dt.second⟩⟩
        = .ok (dt.toSeconds + 5 * 3600) := by
  have hl : localizeEastern dt (some false) = some (dt.toSeconds + 5 * 3600) := by
    unfold localizeEastern
    rcases h with h | h <;> rw [h] <;> rfl
  refine ⟨hl, by rw [hl]; rfl, ?_⟩
  unfold calculate_kickoff_timestamp
  have hcomb : combine ⟨dt.year, dt.month, dt.day⟩ ⟨dt.hour, dt.minute, dt.second⟩ = dt := rfl
  simp only [hcomb, hl]

/-- C10 witness: 2025-11-02 01:30 is in the repeated fall-back hour;
the default resolves it to EST (UTC-5). -/
theorem localize_default_is_standard_witness :
    (classifyEastern ⟨2025, 11, 2, 1, 30, 0⟩ = .ambiguous
      ∨ classifyEastern ⟨2025, 11, 2, 1, 30, 0⟩ = .nonexistent)
    ∧ localizeEastern ⟨2025, 11, 2, 1, 30, 0⟩ (some false)
        = some (DateTime.toSeconds ⟨2025, 11, 2, 1, 30, 0⟩ + 5 * 3600)
    ∧ (localizeEastern ⟨2025, 11, 2, 1, 30, 0⟩ (some false)).isSome = true
    ∧ calculate_kickoff_timestamp
        ⟨"2025_09_SF_NYG", .intVal 2025, .intVal 9, "regular", .intVal 25, "NYG",
         .intVal 31, "SF", .parsed ⟨2025, 11, 2⟩, .timeObj ⟨1, 30, 0⟩⟩
        = .ok (DateTime.toSeconds ⟨2025, 11, 2, 1, 30, 0⟩ + 5 * 3600) := by
  refine ⟨by decide, ?_⟩
  exact localize_default_is_standard ⟨2025, 11, 2, 1, 30, 0⟩ "2025_09_SF_NYG" "regular"
    "NYG" "SF" (.intVal 2025) (.intVal 9) (.intVal 25) (.intVal 31) (by decide)

/-! Section: Helper lemmas about the Referential Validator -/

/-- When the id cell converts, the side check cannot raise: it returns
exactly the spec-level error entries for that side. -/
theorem checkSide_ok (tl : List (String × Int)) (rowNum : Nat) (side : Side)
    (idCell : Cell) (abbr : String) (h : (idCell.toInt?).isSome) :
    checkSide tl rowNum side idCell abbr = .ok (sideErrors tl rowNum side idCell abbr) := by
  cases idCell with
  | nonInt s => simp [Cell.toInt?] at h
  | intVal n =>
    unfold checkSide sideErrors
    simp only [Cell.toInt?]
    cases team_id_lookup_get tl n with
    | none => rfl
    | some canon => by_cases hc : canon = abbr <;> simp [hc]

/-- When both id cells convert, a row's iteration returns both sides'
spec-level entries, home first. -/
theorem validateRow_ok (tl : List (String × Int)) (index : Nat) (row : GameRow)
    (h1 : (Cell.toInt? row.home_team_id).isSome)
    (h2 : (Cell.toInt? row.away_team_id).isSome) :
    validateRow tl index row = .ok (specRowErrors tl index row) := by
  unfold validateRow specRowErrors
  rw [checkSide_ok tl (index + 2) .home row.home_team_id row.home_team h1,
      checkSide_ok tl (index + 2) .away row.away_team_id row.away_team h2]
  rfl

/-- Under the convertibility precondition, the whole loop completes and
accumulates every row's entries in row order. -/
theorem validateAll_ok (tl : List (String × Int)) (rows : List GameRow)
    (h : ∀ r ∈ rows, (Cell.toInt? r.home_team_id).isSome ∧ (Cell.toInt? r.away_team_id).isSome) :
    ∀ index, validateAll tl index rows = .ok (allSpecErrors tl index rows) := by
  induction rows with
  | nil => intro index; rfl
  | cons row rest ih =>
    intro index
    have hr := h row (List.mem_cons_self row rest)
    unfold validateAll allSpecErrors
    rw [validateRow_ok tl index row hr.1 hr.2,
        ih (fun r hm => h r (List.mem_cons_of_mem row hm)) (index + 1)]
    rfl

/-- Each row's spec-level entries embed into the accumulated list. -/
theorem specRowErrors_subset (tl : List (String × Int)) (rows : List GameRow) :
    ∀ k index row, rows.get? k = some row →
      ∀ e ∈ specRowErrors tl (index + k) row, e ∈ allSpecErrors tl index rows := by
  induction rows with
  | nil =>
    intro k index row hk
    simp [List.get?] at hk
  | cons r0 rest ih =>
    intro k index row hk e he
    match k with
    | 0 =>
      simp only [List.get?] at hk
      injection hk with hk
      subst hk
      unfold allSpecErrors
      exact List.mem_append_left _ (by simpa using he)
    | k' + 1 =>
      simp only [List.get?] at hk
      have hrw : index + (k' + 1) = (index + 1) + k' := by omega
      rw [hrw] at he
      exact List.mem_append_right _ (ih k' (index + 1) row hk e he)

/-- A clean (fully convertible) prefix of rows never raises, so an
exception in the remainder of the loop surfaces unchanged. -/
theorem validateAll_append_error (tl : List (String × Int)) (rest : List GameRow)
    (f : ConvFailure) :
    ∀ (pre : List GameRow) (index : Nat),
      (∀ x ∈ pre, (Cell.toInt? x.home_team_id).isSome ∧ (Cell.toInt? x.away_team_id).isSome) →
      validateAll tl (index + pre.length) rest = .error f →
      validateAll tl index (pre ++ rest) = .error f := by
  intro pre
  induction pre with
  | nil =>
    intro index _ h
    simpa using h
  | cons x xs ih =>
    intro index hpre h
    have hx := hpre x (List.mem_cons_self x xs)
    show validateAll tl index (x :: (xs ++ rest)) = .error f
    unfold validateAll
    rw [validateRow_ok tl index x hx.1 hx.2,
        ih (index + 1) (fun r hm => hpre r (List.mem_cons_of_mem x hm))
          (by rw [show index + 1 + xs.length = index + (x :: xs).length by simp; omega]
              exact h)]
    rfl

/-! Section: Claim theorems for the Referential Validator -/

/-- C3: under the convertibility precondition, referential validation
is exhaustive — both sides of every row are checked, an absent id
contributes a not-found entry and a code mismatch contributes an entry
naming both the supplied and the expected code, all accumulated in the
final list — and a non-empty list produces a `referentialError`
carrying the true total count while displaying at most the first ten
entries. -/
theorem validate_teams_exist_exhaustive (rows : List GameRow) (tl : List (String × Int))
    (h : ∀ r ∈ rows, (Cell.toInt? r.home_team_id).isSome ∧ (Cell.toInt? r.away_team_id).isSome) :
    validate_teams_exist rows tl =
      (if (allSpecErrors tl 0 rows).isEmpty then .passed
       else .referentialError (allSpecErrors tl 0 rows).length ((allSpecErrors tl 0 rows).take 10))
    ∧ ∀ k row, rows.get? k = some row →
        ((∀ tid, row.home_team_id.toInt? = some tid →
            (team_id_lookup_get tl tid = none →
               TeamError.notFound (k + 2) .home tid ∈ allSpecErrors tl 0 rows)
          ∧ (∀ canon, team_id_lookup_get tl tid = some canon → canon ≠ row.home_team →
               TeamError.mismatch (k + 2) .home tid row.home_team canon ∈ allSpecErrors tl 0 rows))
        ∧ (∀ tid, row.away_team_id.toInt? = some tid →
            (team_id_lookup_get tl tid = none →
               TeamError.notFound (k + 2) .away tid ∈ allSpecErrors tl 0 rows)
          ∧ (∀ canon, team_id_lookup_get tl tid = some canon → canon ≠ row.away_team →
               TeamError.mismatch (k + 2) .away tid row.away_team canon ∈ allSpecErrors tl 0 rows))) := by
  constructor
  · unfold validate_teams_exist
    rw [validateAll_ok tl rows h 0]
  · intro k row hk
    have hsub := specRowErrors_subset tl rows k 0 row hk
    simp only [Nat.zero_add] at hsub
    constructor
    · intro tid htid
      constructor
      · intro hnone
        refine hsub _ ?_
        unfold specRowErrors
        refine List.mem_append_left _ ?_
        simp [sideErrors, htid, hnone]
      · intro canon hcanon hne
        refine hsub _ ?_
        unfold specRowErrors
        refine List.mem_append_left _ ?_
        simp [sideErrors, htid, hcanon, hne]
    · intro tid htid
      constructor
      · intro hnone
        refine hsub _ ?_
        unfold specRowErrors
        refine List.mem_append_right _ ?_
        simp [sideErrors, htid, hnone]
      · intro canon hcanon hne
        refine hsub _ ?_
        unfold specRowErrors
        refine List.mem_append_right _ ?_
        simp [sideErrors, htid, hcanon, hne]

/-- C3 witness: a two-row table producing one not-found and one
mismatch entry on the second row. -/
theorem validate_teams_exist_exhaustive_witness :
    validate_teams_exist [gameRowA, gameRowRefErr] teamLookupW =
      (if (allSpecErrors teamLookupW 0 [gameRowA, gameRowRefErr]).isEmpty then .passed
       else .referentialError (allSpecErrors teamLookupW 0 [gameRowA, gameRowRefErr]).length
              ((allSpecErrors teamLookupW 0 [gameRowA, gameRowRefErr]).take 10))
    ∧ TeamError.notFound 3 .home 99 ∈ allSpecErrors teamLookupW 0 [gameRowA, gameRowRefErr]
    ∧ TeamError.mismatch 3 .away 21 "XX" "PHI" ∈ allSpecErrors teamLookupW 0 [gameRowA, gameRowRefErr] := by
  have hmain := validate_teams_exist_exhaustive [gameRowA, gameRowRefErr] teamLookupW (by decide)
  refine ⟨hmain.1, ?_, ?_⟩
  · exact ((hmain.2 1 gameRowRefErr (by decide)).1 99 (by decide)).1 (by decide)
  · exact ((hmain.2 1 gameRowRefErr (by decide)).2 21 (by decide)).2 "PHI" (by decide) (by decide)

/-- C9: a team-id cell that is not integer-convertible makes
`validate_teams_exist` abort with an uncaught conversion exception at
that row and side — no referential error entry is appended and no
aggregated report is produced, even when earlier rows validated
cleanly; exhaustive accumulation thus only holds under the
convertibility precondition. -/
theorem validate_teams_exist_conversion_aborts (pre : List GameRow) (row : GameRow)
    (post : List GameRow) (tl : List (String × Int))
    (hpre : ∀ x ∈ pre, (Cell.toInt? x.home_team_id).isSome ∧ (Cell.toInt? x.away_team_id).isSome) :
    (row.home_team_id.toInt? = none →
       validate_teams_exist (pre ++ row :: post) tl =
         .conversionError ⟨pre.length + 2, .home, row.home_team_id.raw⟩)
    ∧ (∀ tid, row.home_team_id.toInt? = some tid → row.away_team_id.toInt? = none →
       validate_teams_exist (pre ++ row :: post) tl =
         .conversionError ⟨pre.length + 2, .away, row.away_team_id.raw⟩) := by
  have key : ∀ (f : ConvFailure),
      validateAll tl (0 + pre.length) (row :: post) = .error f →
      validate_teams_exist (pre ++ row :: post) tl = .conversionError f := by
    intro f hf
    unfold validate_teams_exist
    rw [validateAll_append_error tl (row :: post) f pre 0 hpre hf]
  constructor
  · intro hnone
    refine key _ ?_
    unfold validateAll validateRow checkSide
    rw [hnone]
    simp only [Nat.zero_add]
    rfl
  · intro tid htid hnone
    refine key _ ?_
    unfold validateAll validateRow
    rw [checkSide_ok tl (0 + pre.length + 2) .home row.home_team_id row.home_team
          (by rw [htid]; rfl)]
    unfold checkSide
    rw [hnone]
    simp only [Nat.zero_add]
    rfl

/-- C9 witness: one clean row followed by a row whose home id cell is
the text `"N/A"`; validation aborts with the conversion exception. -/
theorem validate_teams_exist_conversion_aborts_witness :
    validate_teams_exist ([gameRowA] ++ gameRowConvErr :: []) teamLookupW =
      .conversionError ⟨[gameRowA].length + 2, .home, gameRowConvErr.home_team_id.raw⟩ :=
  (validate_teams_exist_conversion_aborts [gameRowA] gameRowConvErr [] teamLookupW
    (by decide)).1 (by decide)

/-! Section: Claim theorems for the Orchestrator -/

/-- C6 counterexample: in a run where every validation passes but the
load phase ends in an error `main` observes (it catches the exception
and exits 1), the connection is NOT closed by the orchestrator — the
script only reaches `connection.close()` on the normal-return path, so
the claim "main closes the connection regardless of load outcome" is
false on the code. -/
theorem main_close_skipped_on_load_fault :
    (mainRun envLoadFault).exitCode = 1
    ∧ (upload_games_to_database [gameRowA] insAllOk
        (some (0, "Lost connection to MySQL server")) true ⟨[], []⟩).1
        = .raised "Lost connection to MySQL server"
    ∧ (mainRun envLoadFault).connClosed = false := by
  refine ⟨by decide, by decide, by decide⟩

/-- C6 (amended): once the pipeline reaches the load phase, `main`
closes the connection exactly when the load returns normally (even with
per-row failures, exiting 0); when an uncaught exception escapes the
load, it propagates — after the transaction's own rollback, so no row
of the call is durable — to `main`'s top-level handler, which exits
with status 1 without closing the connection. -/
theorem main_close_only_on_normal_return (env : MainEnv) (columns : List String)
    (rows : List GameRow) (tl : List (String × Int))
    (hargc : env.argc = 2) (hfile : env.fileExists = true)
    (hread : env.readResult = some (columns, rows))
    (hcols : validate_excel_columns columns = .ok ())
    (htypes : validate_game_types rows = .ok ())
    (hconn : env.connectOk = true)
    (hlookup : env.teamLookup = some tl)
    (hteams : validate_teams_exist rows tl = .passed) :
    (∀ s e errs c,
        upload_games_to_database rows env.ins env.iterFault env.commitOk ⟨[], []⟩
          = (.returned s e errs, c) →
        mainRun env = ⟨0, true, true, c.committed⟩)
    ∧ (∀ m c,
        upload_games_to_database rows env.ins env.iterFault env.commitOk ⟨[], []⟩
          = (.raised m, c) →
        mainRun env = ⟨1, true, false, c.committed⟩ ∧ c.committed = []) := by
  constructor
  · intro s e errs c hup
    simp [mainRun, hargc, hfile, hread, hcols, htypes, hconn, hlookup, hteams, hup]
  · intro m c hup
    have hcom := upload_raised_committed rows env.ins env.iterFault env.commitOk
      ⟨[], []⟩ m c hup
    simp only [] at hcom
    refine ⟨?_, hcom.1⟩
    simp [mainRun, hargc, hfile, hread, hcols, htypes, hconn, hlookup, hteams, hup, hcom.1]

/-- C6 (amended) witness: the load-fault environment exercises the
raised branch of the amended theorem. -/
theorem main_close_only_on_normal_return_witness :
    mainRun envLoadFault = ⟨1, true, false, (⟨[], []⟩ : Connection).committed⟩
    ∧ (⟨[], []⟩ : Connection).committed = [] :=
  (main_close_only_on_normal_return envLoadFault required_columns [gameRowA] teamLookupW
    rfl rfl rfl rfl rfl rfl rfl (by decide)).2
    "Lost connection to MySQL server" ⟨[], []⟩ (by decide)

/-- C7: the process exit status is 0 exactly when the run completes the
full pipeline — argument count right, file present, spreadsheet read,
all three validations passing, connection and team lookup succeeding,
and the load returning normally (even if per-row failures were
reported) — and 1 in every other case (wrong argument count, missing
file, a validation raising, or any unhandled exception reaching the top
level of `main`). -/
theorem main_exit_status (env : MainEnv) :
    ((mainRun env).exitCode = 0 ∨ (mainRun env).exitCode = 1)
    ∧ ((mainRun env).exitCode = 0 ↔
        env.argc = 2 ∧ env.fileExists = true
        ∧ ∃ columns rows, env.readResult = some (columns, rows)
            ∧ validate_excel_columns columns = .ok ()
            ∧ validate_game_types rows = .ok ()
            ∧ env.connectOk = true
            ∧ ∃ tl, env.teamLookup = some tl
                ∧ validate_teams_exist rows tl = .passed
                ∧ ∃ s e errs c,
                    upload_games_to_database rows env.ins env.iterFault env.commitOk ⟨[], []⟩
                      = (.returned s e errs, c)) := by
  by_cases h1 : env.argc = 2
  · cases h2 : env.fileExists with
    | false => simp [mainRun, h1, h2]
    | true =>
      cases hread : env.readResult with
      | none => simp [mainRun, h1, h2, hread]
      | some p =>
        obtain ⟨columns, rows⟩ := p
        cases hcols : validate_excel_columns columns with
        | error es => simp [mainRun, h1, h2, hread, hcols]
        | ok u =>
          cases u
          cases htypes : validate_game_types rows with
          | error es => simp [mainRun, h1, h2, hread, hcols, htypes]
          | ok u =>
            cases u
            cases hconn : env.connectOk with
            | false => simp [mainRun, h1, h2, hread, hcols, htypes, hconn]
            | true =>
              cases hlk : env.teamLookup with
              | none => simp [mainRun, h1, h2, hread, hcols, htypes, hconn, hlk]
              | some tl =>
                cases hteams : validate_teams_exist rows tl with
                | passed =>
                  cases hup : upload_games_to_database rows env.ins env.iterFault env.commitOk
                      ⟨[], []⟩ with
                  | mk outcome c =>
                    cases outcome with
                    | returned s e errs =>
                      simp only [mainRun, h1, h2, hread, hcols, htypes, hconn, hlk, hteams, hup]
                      simp
                      exact ⟨columns, rows, ⟨rfl, rfl⟩, hcols, htypes, hteams, s, e, errs, c, hup⟩
                    | raised m =>
                      simp [mainRun, h1, h2, hread, hcols, htypes, hconn, hlk, hteams, hup]
                | referentialError t d =>
                  simp [mainRun, h1, h2, hread, hcols, htypes, hconn, hlk, hteams]
                | conversionError f =>
                  simp [mainRun, h1, h2, hread, hcols, htypes, hconn, hlk, hteams]
  · simp [mainRun, h1]

end NflUpload
